import Mathlib

/-!
Shallow embedding of the analytical core of a geospatial change-detection
pipeline: spectral-index computation (`change_detection.py`,
`feature_extraction.py`), categorical change matrices
(`temporal_analysis.py`), a land-cover classifier wrapper around an
ensemble model (`classification.py`), and accuracy validation
(`validation.py`).

Numeric cells are modelled as rationals; a float NaN is modelled as `none`
in an `Option`-valued cell.  Exceptions raised by the underlying array and
machine-learning libraries are modelled by the `PyError` type; the
repository defines no exception classes of its own.
-/

namespace GeoChange

/-- Exception kinds observable from the embedded code paths.  The
repository defines no exception classes itself; the only errors that can
surface are those raised inside the array and machine-learning libraries
it calls. -/
inductive PyError where
  | valueError
  | indexError
  | notFittedError
deriving DecidableEq

/-- A 2-D numeric layer (row-major list of rows) of plain float values. -/
abbrev Layer := List (List ℚ)

/-- A 2-D layer whose cells may be NaN (modelled as `none`). -/
abbrev NLayer := List (List (Option ℚ))

/-- Elementwise combination of two layers (numpy elementwise arithmetic on
two arrays of identical shape, as holds for bands of a single image). -/
def zipCells (f : α → β → γ) (a : List (List α)) (b : List (List β)) : List (List γ) :=
  List.zipWith (fun ra rb => List.zipWith f ra rb) a b

/-- Number of rows of a 2-D array. -/
def rowsOf (g : List (List α)) : ℕ := g.length

/-- Number of columns of a 2-D array (the length of its first row). -/
def colsOf (g : List (List α)) : ℕ := (g.headD []).length

/-- numpy broadcast compatibility of one pair of dimensions. -/
def dimOk (a b : ℕ) : Bool := a == b || a == 1 || b == 1

/-- numpy broadcast compatibility of two 2-D shapes. -/
def broadcastable (g : List (List α)) (h : List (List β)) : Bool :=
  dimOk (rowsOf g) (rowsOf h) && dimOk (colsOf g) (colsOf h)

/-- Broadcast one row to `c` columns (numpy tiling of a size-1 axis). -/
def bcastRow (d : α) (row : List α) (c : ℕ) : List α :=
  if row.length = 1 then List.replicate c (row.headD d) else row

/-- Broadcast a 2-D array to shape `r × c` (numpy tiling of size-1 axes). -/
def bcast (d : α) (g : List (List α)) (r c : ℕ) : List (List α) :=
  (if g.length = 1 then List.replicate r (g.headD []) else g).map (fun row => bcastRow d row c)

namespace ChangeDetection

/-- Per-cell strict-masking normalized difference from
`change_detection.py`: `denominator[denominator == 0] = np.nan` followed
by the division, so an exactly-zero denominator yields NaN (`none`). -/
def ndCell (a b : ℚ) : Option ℚ :=
  if a + b = 0 then none else some ((a - b) / (a + b))

/-- `change_detection.calculate_ndvi`: strict-masking NDVI; band 3 of the
image is near-IR and band 2 is red. -/
def calculate_ndvi (image : List Layer) : NLayer :=
  zipCells ndCell (image.getD 3 []) (image.getD 2 [])

/-- `change_detection.calculate_ndwi`: strict-masking NDWI; band 1 is
green and band 3 is near-IR. -/
def calculate_ndwi (image : List Layer) : NLayer :=
  zipCells ndCell (image.getD 1 []) (image.getD 3 [])

/-- `change_detection.calculate_ndbi`: strict-masking NDBI; band 0 is used
as the SWIR placeholder and band 3 is near-IR. -/
def calculate_ndbi (image : List Layer) : NLayer :=
  zipCells ndCell (image.getD 0 []) (image.getD 3 [])

/-- Cellwise float subtraction with NaN propagation. -/
def subCell : Option ℚ → Option ℚ → Option ℚ
  | some x, some y => some (x - y)
  | _, _ => none

/-- numpy subtraction of two NaN-capable arrays, with broadcasting;
non-broadcastable shapes raise the library's broadcast `ValueError`. -/
def subGrids (g h : NLayer) : Except PyError NLayer :=
  if broadcastable g h then
    Except.ok (zipCells subCell
      (bcast none g (max (rowsOf g) (rowsOf h)) (max (colsOf g) (colsOf h)))
      (bcast none h (max (rowsOf g) (rowsOf h)) (max (colsOf g) (colsOf h))))
  else Except.error PyError.valueError

/-- `change_detection.detect_changes`: strict-mode NDVI/NDWI/NDBI for both
dates together with their differences (2023 − 2018), computed in source
order (NDVI, then NDWI, then NDBI).  The function performs no shape
validation of its own; the only possible failure is the array library's
broadcast error inside one of the three subtractions, the first failing
one winning. -/
def detect_changes (image_2018 image_2023 : List Layer) :
    Except PyError ((NLayer × NLayer × NLayer) × (NLayer × NLayer × NLayer) ×
      (NLayer × NLayer × NLayer)) :=
  match subGrids (calculate_ndvi image_2023) (calculate_ndvi image_2018),
      subGrids (calculate_ndwi image_2023) (calculate_ndwi image_2018),
      subGrids (calculate_ndbi image_2023) (calculate_ndbi image_2018) with
  | Except.ok ndvi_change, Except.ok ndwi_change, Except.ok ndbi_change =>
      Except.ok
        ((calculate_ndvi image_2018, calculate_ndvi image_2023, ndvi_change),
         (calculate_ndwi image_2018, calculate_ndwi image_2023, ndwi_change),
         (calculate_ndbi image_2018, calculate_ndbi image_2023, ndbi_change))
  | Except.error e, _, _ => Except.error e
  | _, Except.error e, _ => Except.error e
  | _, _, Except.error e => Except.error e

/-- Positive-change mask cell: float comparison `change > threshold`,
where a NaN cell compares false. -/
def gtCell (t : ℚ) : Option ℚ → Bool
  | some v => decide (t < v)
  | none => false

/-- Negative-change mask cell: float comparison `change < -threshold`,
where a NaN cell compares false. -/
def ltNegCell (t : ℚ) : Option ℚ → Bool
  | some v => decide (v < -t)
  | none => false

/-- `change_detection.calculate_area_stats` (the caller passes threshold
`0.1` by default): boolean masks of significant change, counted by
`np.nansum` and scaled by the pixel ground area in square kilometers. -/
def calculate_area_stats (change : NLayer) (pixel_size_x pixel_size_y threshold : ℚ) :
    ℚ × ℚ :=
  let pos_mask := change.map (fun row => row.map (gtCell threshold))
  let neg_mask := change.map (fun row => row.map (ltNegCell threshold))
  let pixel_area_km2 := pixel_size_x * pixel_size_y / 1000000
  ((((pos_mask.map (fun row => row.countP id)).sum : ℕ) : ℚ) * pixel_area_km2,
   (((neg_mask.map (fun row => row.countP id)).sum : ℕ) : ℚ) * pixel_area_km2)

end ChangeDetection

namespace FeatureExtraction

/-- The `1e-6` additive stabilizer used by the epsilon-stabilized
indices of `feature_extraction.py`. -/
def eps : ℚ := 1 / 1000000

/-- The NDVI denominator `nir + red + 1e-6`. -/
def ndviDenom (nir red : ℚ) : ℚ := nir + red + eps

/-- `feature_extraction.calculate_ndvi` per cell:
`(nir - red) / (nir + red + 1e-6)`. -/
def ndviCell (nir red : ℚ) : ℚ := (nir - red) / ndviDenom nir red

/-- `feature_extraction.calculate_ndvi` on whole bands. -/
def calculate_ndvi (nir red : Layer) : Layer := zipCells ndviCell nir red

/-- The NDWI denominator `green + nir + 1e-6`. -/
def ndwiDenom (green nir : ℚ) : ℚ := green + nir + eps

/-- `feature_extraction.calculate_ndwi` per cell. -/
def ndwiCell (green nir : ℚ) : ℚ := (green - nir) / ndwiDenom green nir

/-- The NDBI denominator `swir + nir + 1e-6`. -/
def ndbiDenom (swir nir : ℚ) : ℚ := swir + nir + eps

/-- `feature_extraction.calculate_ndbi` per cell. -/
def ndbiCell (swir nir : ℚ) : ℚ := (swir - nir) / ndbiDenom swir nir

/-- The SAVI denominator `nir + red + L + 1e-6` (default `L = 0.5`). -/
def saviDenom (nir red L : ℚ) : ℚ := nir + red + L + eps

/-- `feature_extraction.calculate_savi` per cell. -/
def saviCell (nir red L : ℚ) : ℚ := ((nir - red) * (1 + L)) / saviDenom nir red L

/-- The EVI denominator `nir + 6*red - 7.5*blue + 1 + 1e-6`. -/
def eviDenom (nir red blue : ℚ) : ℚ := nir + 6 * red - 7.5 * blue + 1 + eps

/-- `feature_extraction.calculate_evi` per cell:
`2.5 * (nir - red) / (nir + 6*red - 7.5*blue + 1 + 1e-6)`. -/
def eviCell (nir red blue : ℚ) : ℚ := 2.5 * (nir - red) / eviDenom nir red blue

/-- The BSI denominator `(swir + red) + (nir + blue) + 1e-6`. -/
def bsiDenom (swir nir red blue : ℚ) : ℚ := (swir + red) + (nir + blue) + eps

/-- `feature_extraction.calculate_bsi` per cell. -/
def bsiCell (swir nir red blue : ℚ) : ℚ :=
  ((swir + red) - (nir + blue)) / bsiDenom swir nir red blue

/-- numpy `sqrt` on one float cell: a negative argument yields NaN
(`none`) with only a runtime warning, never an exception. -/
noncomputable def sqrtCell (q : ℚ) : Option ℝ :=
  if q < 0 then none else some (Real.sqrt (q : ℝ))

/-- `feature_extraction.calculate_msavi` per cell:
`(2*nir + 1 - sqrt((2*nir+1)^2 - 8*(nir-red))) / 2`.  The NaN produced by
a negative square-root argument propagates through the surrounding
arithmetic, so the whole cell becomes NaN. -/
noncomputable def msaviCell (nir red : ℚ) : Option ℝ :=
  (sqrtCell ((2 * nir + 1) ^ 2 - 8 * (nir - red))).map
    (fun s => ((2 * (nir : ℝ) + 1) - s) / 2)

/-- `feature_extraction.calculate_msavi` on whole bands. -/
noncomputable def calculate_msavi (nir red : Layer) : List (List (Option ℝ)) :=
  zipCells msaviCell nir red

end FeatureExtraction

/-- The grid is a rectangular `r × c` array of rows. -/
def Rect (g : List (List α)) (r c : ℕ) : Prop :=
  g.length = r ∧ ∀ row ∈ g, row.length = c

instance (g : List (List α)) (r c : ℕ) : Decidable (Rect g r c) :=
  decidable_of_iff (g.length = r ∧ ∀ row ∈ g, row.length = c) Iff.rfl

namespace TemporalAnalysis

/-- `np.sum((t1 == i) & (t2 == j))` over two position-aligned flattened
label arrays: the number of positions holding class `i` at time 1 and
class `j` at time 2. -/
def countPair (a b : List ℕ) (i j : ℕ) : ℕ :=
  (a.zip b).countP (fun p => decide (p.1 = i) && decide (p.2 = j))

/-- `temporal_analysis.calculate_changes`: a 4×4 matrix with
`matrix[i-1, j-1] = np.sum((class_2017 == i) & (class_2023 == j))` for
`i, j` in `1..4`, with numpy broadcasting semantics for the elementwise
comparison of the two label grids; non-broadcastable shapes raise the
array library's `ValueError`.  The function performs no shape validation
of its own. -/
def calculate_changes (class_2017 class_2023 : List (List ℕ)) :
    Except PyError (List (List ℕ)) :=
  if broadcastable class_2017 class_2023 then
    Except.ok ((List.range 4).map (fun i => (List.range 4).map (fun j =>
      countPair
        ((bcast 0 class_2017 (max (rowsOf class_2017) (rowsOf class_2023))
          (max (colsOf class_2017) (colsOf class_2023))).flatten)
        ((bcast 0 class_2023 (max (rowsOf class_2017) (rowsOf class_2023))
          (max (colsOf class_2017) (colsOf class_2023))).flatten)
        (i + 1) (j + 1))))
  else Except.error PyError.valueError

end TemporalAnalysis

namespace Classification

/-- Model of the fitted `sklearn.ensemble.RandomForestClassifier` the
wrapper delegates to.  The tree internals are abstracted: `vote` is the
ensemble's majority-vote decision — an index into the recorded training
labels, taken modulo their number, reflecting the library contract that
`predict` only ever returns classes observed at fit time — and
`importances` stands for `feature_importances_`, the impurity-decrease
scores (one per training feature).  Properties proved below are
universally quantified over these parameters, so they hold for whatever
the library computes internally. -/
structure RandomForest where
  trainLabels : List ℕ
  nFeatures : ℕ
  importances : List ℚ
  vote : List ℚ → ℕ

/-- `RandomForestClassifier.fit`: fails with the library's `ValueError`
on empty or length-mismatched input and otherwise records the observed
training labels; the library imposes no minimum class-count requirement —
a single distinct class fits successfully. -/
def RandomForest.fit (vote : List ℚ → ℕ) (importances : List ℚ)
    (X : List (List ℚ)) (y : List ℕ) : Except PyError RandomForest :=
  if X.length = y.length ∧ y ≠ [] then
    Except.ok ⟨y, (X.headD []).length, importances, vote⟩
  else Except.error PyError.valueError

/-- `RandomForestClassifier.predict` on one sample row: the majority
vote selects one of the classes observed at fit time. -/
def RandomForest.predictRow (m : RandomForest) (x : List ℚ) : ℕ :=
  m.trainLabels.getD (m.vote x % m.trainLabels.length) 0

/-- `classification.LandCoverClassifier`: the (possibly not yet fitted)
ensemble plus the fixed name lists set in the constructor. -/
structure LandCoverClassifier where
  model : Option RandomForest
  feature_names : List String
  class_names : List String

/-- The `LandCoverClassifier` constructor: unfitted model and the fixed
feature names `['NDVI', 'NDWI', 'NDBI']` — regardless of how many
features later training data will have. -/
def LandCoverClassifier.init : LandCoverClassifier :=
  ⟨none, ["NDVI", "NDWI", "NDBI"], ["Water", "Vegetation", "Built-up", "Barren"]⟩

/-- `np.moveaxis` followed by `reshape(-1, bands)` on flattened band
data: pixel `i` becomes the row of its per-band values. -/
def toPixelRows (bands : List (List ℚ)) : List (List ℚ) :=
  (List.range (bands.headD []).length).map (fun i => bands.map (fun b => b.getD i 0))

/-- `LandCoverClassifier.prepare_training_data` on flattened rows: drop
every pixel whose label is 0, then split the remaining parallel rows
into train and test parts.  `train_test_split(..., test_size=0.2,
random_state=42)` selects the split with a library-internal shuffle;
that selection is abstracted as the predicate `sel` on row positions, so
properties proved below hold for every possible split. -/
def prepare_training_data (sel : ℕ → Bool) (X : List (List ℚ)) (y : List ℕ) :
    (List (List ℚ) × List ℕ) × (List (List ℚ) × List ℕ) :=
  (((((((X.zip y).filter (fun p => decide (p.2 ≠ 0))).enum.filter
        (fun q => sel q.1)).map (fun q => q.2)).map (fun p => p.1)),
    ((((X.zip y).filter (fun p => decide (p.2 ≠ 0))).enum.filter
        (fun q => sel q.1)).map (fun q => q.2)).map (fun p => p.2)),
   (((((X.zip y).filter (fun p => decide (p.2 ≠ 0))).enum.filter
        (fun q => !sel q.1)).map (fun q => q.2)).map (fun p => p.1),
    ((((X.zip y).filter (fun p => decide (p.2 ≠ 0))).enum.filter
        (fun q => !sel q.1)).map (fun q => q.2)).map (fun p => p.2)))

/-- `LandCoverClassifier.train`: no validation of its own — it calls the
library's `fit` directly; in particular there is no class-count check
and no `InsufficientClassesError` exists anywhere in the code. -/
def LandCoverClassifier.train (c : LandCoverClassifier) (vote : List ℚ → ℕ)
    (importances : List ℚ) (X_train : List (List ℚ)) (y_train : List ℕ) :
    Except PyError LandCoverClassifier :=
  (RandomForest.fit vote importances X_train y_train).map
    (fun m => { c with model := some m })

/-- `LandCoverClassifier.predict`: flatten the feature stack to
per-pixel rows, predict every row, and return the flattened label list
(the source then reshapes it to the image shape and writes it out).  An
unfitted model makes the library raise its not-fitted error. -/
def LandCoverClassifier.predict (c : LandCoverClassifier) (bands : List (List ℚ)) :
    Except PyError (List ℕ) :=
  match c.model with
  | none => Except.error PyError.notFittedError
  | some m => Except.ok ((toPixelRows bands).map (fun x => m.predictRow x))

/-- `LandCoverClassifier.get_feature_importance`:
`dict(zip(self.feature_names, self.model.feature_importances_))` — the
fixed constructor-time names zipped against the fitted model's
importance vector, truncating at the shorter of the two lists; an
unfitted model makes the library raise its not-fitted error. -/
def LandCoverClassifier.get_feature_importance (c : LandCoverClassifier) :
    Except PyError (List (String × ℚ)) :=
  match c.model with
  | none => Except.error PyError.notFittedError
  | some m => Except.ok (c.feature_names.zip m.importances)

end Classification

namespace Validation

/-- `sklearn.metrics.confusion_matrix`: rows and columns indexed by the
sorted distinct labels occurring in either argument; entry `(i, j)`
counts the samples with true label `labels[i]` and predicted label
`labels[j]`. -/
def confusionMatrix (y_true y_pred : List ℕ) : List (List ℕ) :=
  ((y_true ++ y_pred).dedup.mergeSort (fun a b => decide (a ≤ b))).map (fun i =>
    ((y_true ++ y_pred).dedup.mergeSort (fun a b => decide (a ≤ b))).map (fun j =>
      (y_true.zip y_pred).countP (fun p => decide (p.1 = i) && decide (p.2 = j))))

/-- `validation.calculate_metrics`: `confusion_matrix` raises the
library's `ValueError` on empty input, and `classification_report`
called with four `target_names` raises `ValueError` unless exactly four
distinct labels occur in the data. -/
def calculate_metrics (y_true y_pred : List ℕ) : Except PyError (List (List ℕ)) :=
  if y_true.length = 0 then Except.error PyError.valueError
  else if (y_true ++ y_pred).dedup.length ≠ 4 then Except.error PyError.valueError
  else Except.ok (confusionMatrix y_true y_pred)

/-- `validation.validate_classification` (in-memory core): flatten both
label grids; the mask step `y_pred[y_true != 0]` raises the array
library's `IndexError` when the flattened lengths disagree; otherwise
exactly the positions whose ground-truth label is 0 are dropped and the
metrics are computed from the remaining pairs.  Returns the masked
prediction and ground-truth lists and their confusion matrix.  No shape
validation is performed and no error class of the code's own exists. -/
def validate_classification (prediction ground_truth : List (List ℕ)) :
    Except PyError ((List ℕ × List ℕ) × List (List ℕ)) :=
  if prediction.flatten.length ≠ ground_truth.flatten.length then
    Except.error PyError.indexError
  else
    (calculate_metrics
        (((ground_truth.flatten.zip prediction.flatten).filter
          (fun p => decide (p.1 ≠ 0))).map (fun p => p.1))
        (((ground_truth.flatten.zip prediction.flatten).filter
          (fun p => decide (p.1 ≠ 0))).map (fun p => p.2))).map
      (fun cm =>
        ((((ground_truth.flatten.zip prediction.flatten).filter
            (fun p => decide (p.1 ≠ 0))).map (fun p => p.2),
          ((ground_truth.flatten.zip prediction.flatten).filter
            (fun p => decide (p.1 ≠ 0))).map (fun p => p.1)), cm))

end Validation

end GeoChange

namespace GeoChange

/-- Claim C1: on a grid whose near-IR layer is `[10, 0]` and red layer is
`[2, 0]`, strict-masking NDVI gives `(10-2)/(10+2) = 2/3` in the first
cell and the no-value marker (not zero, not an error) in the second,
while the epsilon-stabilized NDVI gives `8 / (12 + 1e-6)` — within `1e-6`
of `2/3` — in the first cell and exactly `0` in the second. -/
theorem c1_ndvi_zero_denominator_scenario :
    ChangeDetection.calculate_ndvi [[[0, 0]], [[0, 0]], [[2, 0]], [[10, 0]]] =
      [[some (2 / 3 : ℚ), none]] ∧
    FeatureExtraction.calculate_ndvi [[10, 0]] [[2, 0]] = [[8 / (12 + 1 / 1000000), 0]] ∧
    |8 / (12 + 1 / 1000000) - (2 : ℚ) / 3| < 1 / 1000000 := by
  refine ⟨?_, ?_, by rw [abs_lt]; norm_num⟩
  · norm_num [ChangeDetection.calculate_ndvi, zipCells, ChangeDetection.ndCell]
  · norm_num [FeatureExtraction.calculate_ndvi, zipCells, FeatureExtraction.ndviCell,
      FeatureExtraction.ndviDenom, FeatureExtraction.eps]

/-- Claim C3: the area statistics count a cell as positive change exactly
when its value is strictly greater than the threshold and as negative
change exactly when it is strictly less than minus the threshold; a
no-value (`none`) cell is counted as neither; each returned area is the
matching cell count times `pixel_size_x * pixel_size_y / 10^6`. -/
theorem c3_area_stats_spec (change : NLayer) (px py t : ℚ) :
    ChangeDetection.calculate_area_stats change px py t =
      (((change.flatten.countP (fun c => match c with
          | some v => decide (t < v)
          | none => false)) : ℚ) * px * py / 1000000,
       ((change.flatten.countP (fun c => match c with
          | some v => decide (v < -t)
          | none => false)) : ℚ) * px * py / 1000000) := by
  have key : ∀ (f : Option ℚ → Bool),
      ((change.map (fun row => (row.map f).countP id)).sum) = change.flatten.countP f := by
    intro f
    induction change with
    | nil => simp
    | cons row rest ih =>
        simp [List.countP_map, ih, Function.comp]
  unfold ChangeDetection.calculate_area_stats
  dsimp only
  rw [Prod.mk.injEq]
  constructor
  · rw [show (change.map (fun row => row.map (ChangeDetection.gtCell t))).map
        (fun row => row.countP id) =
        change.map (fun row => (row.map (ChangeDetection.gtCell t)).countP id) by
      simp]
    rw [key (ChangeDetection.gtCell t)]
    rw [show (fun c => match c with
          | some v => decide (t < v)
          | none => false) = ChangeDetection.gtCell t by
      funext c; cases c <;> rfl]
    ring
  · rw [show (change.map (fun row => row.map (ChangeDetection.ltNegCell t))).map
        (fun row => row.countP id) =
        change.map (fun row => (row.map (ChangeDetection.ltNegCell t)).countP id) by
      simp]
    rw [key (ChangeDetection.ltNegCell t)]
    rw [show (fun c => match c with
          | some v => decide (v < -t)
          | none => false) = ChangeDetection.ltNegCell t by
      funext c; cases c <;> rfl]
    ring

/-- Claim C4 (counterexample): the claim asserts the epsilon-stabilized
EVI denominator `nir + 6*red - 7.5*blue + 1 + 1e-6` is nonzero for every
choice of band values; it vanishes at `nir = 0`, `red = 0`,
`blue = (1 + 1e-6) / 7.5 = 1000001/7500000`. -/
theorem c4_evi_denominator_zero_counterexample :
    FeatureExtraction.eviDenom 0 0 (1000001 / 7500000) = 0 := by
  norm_num [FeatureExtraction.eviDenom, FeatureExtraction.eps]

/-- Claim C4 (amended): for nonnegative band values (and a nonnegative
soil factor `L`) the epsilon-stabilized denominators of NDVI, NDWI, NDBI,
SAVI and BSI are strictly positive, hence no division by zero occurs in
those indices; the guarantee does not extend to EVI, whose denominator has
a subtractive blue term and can vanish even on nonnegative bands. -/
theorem c4_epsilon_denominators_positive (nir red green swir blue L : ℚ)
    (h1 : 0 ≤ nir) (h2 : 0 ≤ red) (h3 : 0 ≤ green) (h4 : 0 ≤ swir)
    (h5 : 0 ≤ blue) (h6 : 0 ≤ L) :
    0 < FeatureExtraction.ndviDenom nir red ∧
    0 < FeatureExtraction.ndwiDenom green nir ∧
    0 < FeatureExtraction.ndbiDenom swir nir ∧
    0 < FeatureExtraction.saviDenom nir red L ∧
    0 < FeatureExtraction.bsiDenom swir nir red blue := by
  have he : (0 : ℚ) < FeatureExtraction.eps := by norm_num [FeatureExtraction.eps]
  refine ⟨?_, ?_, ?_, ?_, ?_⟩ <;>
    simp only [FeatureExtraction.ndviDenom, FeatureExtraction.ndwiDenom,
      FeatureExtraction.ndbiDenom, FeatureExtraction.saviDenom,
      FeatureExtraction.bsiDenom] <;>
    linarith

/-- Witness for the amended claim C4, at all-zero bands and the default
soil factor `L = 0.5`. -/
theorem c4_epsilon_denominators_positive_witness :
    (0 : ℚ) ≤ 0 ∧ (0 : ℚ) ≤ 1 / 2 ∧
    (0 < FeatureExtraction.ndviDenom 0 0 ∧
     0 < FeatureExtraction.ndwiDenom 0 0 ∧
     0 < FeatureExtraction.ndbiDenom 0 0 ∧
     0 < FeatureExtraction.saviDenom 0 0 (1 / 2) ∧
     0 < FeatureExtraction.bsiDenom 0 0 0 0) :=
  ⟨by norm_num, by norm_num,
    c4_epsilon_denominators_positive 0 0 0 0 0 (1 / 2) (by norm_num) (by norm_num)
      (by norm_num) (by norm_num) (by norm_num) (by norm_num)⟩

/-- Claim C9: at every cell where the MSAVI inner square-root argument
`(2*nir+1)^2 - 8*(nir-red)` is negative, the result is the no-value
marker (NaN), produced by the library's warning-only `sqrt`, and no
error is raised (the cell function is total). -/
theorem c9_msavi_negative_sqrt (nir red : ℚ)
    (h : (2 * nir + 1) ^ 2 - 8 * (nir - red) < 0) :
    FeatureExtraction.msaviCell nir red = none := by
  unfold FeatureExtraction.msaviCell FeatureExtraction.sqrtCell
  rw [if_pos h]
  rfl

/-- Witness for claim C9 at `nir = 0`, `red = -1`, where the square-root
argument is `1 - 8 = -7 < 0`. -/
theorem c9_msavi_negative_sqrt_witness :
    (2 * (0 : ℚ) + 1) ^ 2 - 8 * ((0 : ℚ) - (-1)) < 0 ∧
    FeatureExtraction.msaviCell 0 (-1) = none :=
  ⟨by norm_num, c9_msavi_negative_sqrt 0 (-1) (by norm_num)⟩

/-- Broadcasting a row of the target width is the identity. -/
theorem bcastRow_self (d : α) (row : List α) (c : ℕ) (h : row.length = c) :
    bcastRow d row c = row := by
  unfold bcastRow
  split
  · next h1 =>
      obtain ⟨x, rfl⟩ := List.length_eq_one.mp h1
      simp only [List.length_cons, List.length_nil] at h
      subst h
      rfl
  · rfl

/-- Broadcasting a rectangular grid to its own shape is the identity. -/
theorem bcast_self (d : α) (g : List (List α)) (r c : ℕ)
    (hr : g.length = r) (hc : ∀ row ∈ g, row.length = c) :
    bcast d g r c = g := by
  unfold bcast
  have h1 : (if g.length = 1 then List.replicate r (g.headD []) else g) = g := by
    split
    · next hone =>
        obtain ⟨row, rfl⟩ := List.length_eq_one.mp hone
        simp only [List.length_cons, List.length_nil] at hr
        subst hr
        rfl
    · rfl
  rw [h1]
  calc g.map (fun row => bcastRow d row c) = g.map id :=
        List.map_congr_left (fun row hrow => bcastRow_self d row c (hc row hrow))
    _ = g := List.map_id g

/-- A nonempty rectangular grid has its row width as column count. -/
theorem colsOf_rect (g : List (List α)) (r c : ℕ) (h : Rect g r c) (hr : 0 < r) :
    colsOf g = c := by
  obtain ⟨hlen, hrow⟩ := h
  cases g with
  | nil => simp only [List.length_nil] at hlen; omega
  | cons row tl => exact hrow row (List.mem_cons_self row tl)

/-- Two grids of one common rectangular shape are broadcast-compatible. -/
theorem broadcastable_of_same_shape (a : List (List α)) (b : List (List β)) (r c : ℕ)
    (ha : Rect a r c) (hb : Rect b r c) : broadcastable a b = true := by
  have h1 : rowsOf a = rowsOf b := by
    show a.length = b.length
    rw [ha.1, hb.1]
  have h2 : colsOf a = colsOf b := by
    rcases Nat.eq_zero_or_pos r with hr | hr
    · have ha0 : a = [] := List.length_eq_zero.mp (ha.1.trans hr)
      have hb0 : b = [] := List.length_eq_zero.mp (hb.1.trans hr)
      rw [ha0, hb0]
      rfl
    · rw [colsOf_rect a r c ha hr, colsOf_rect b r c hb hr]
  unfold broadcastable dimOk
  rw [h1, h2]
  simp

/-- Rectangular grids with broadcast-compatible dimensions are
broadcast-compatible. -/
theorem broadcastable_of_rect {a : List (List α)} {b : List (List β)} {ra ca rb cb : ℕ}
    (ha : Rect a ra ca) (hb : Rect b rb cb) (hra : 0 < ra) (hrb : 0 < rb)
    (h1 : dimOk ra rb = true) (h2 : dimOk ca cb = true) :
    broadcastable a b = true := by
  unfold broadcastable
  rw [show rowsOf a = ra from ha.1, show rowsOf b = rb from hb.1,
    colsOf_rect a ra ca ha hra, colsOf_rect b rb cb hb hrb, h1, h2]
  rfl

/-- Elementwise combination preserves a common rectangular shape. -/
theorem zipCells_rect (f : α → β → γ) (a : List (List α)) (b : List (List β)) (r c : ℕ)
    (ha : Rect a r c) (hb : Rect b r c) : Rect (zipCells f a b) r c := by
  obtain ⟨ha1, ha2⟩ := ha
  obtain ⟨hb1, hb2⟩ := hb
  constructor
  · simp [zipCells, List.length_zipWith, ha1, hb1]
  · intro row hrow
    rw [List.mem_iff_getElem] at hrow
    obtain ⟨n, hn, hrow⟩ := hrow
    have hna : n < a.length := by
      simp only [zipCells, List.length_zipWith] at hn
      omega
    have hnb : n < b.length := by
      simp only [zipCells, List.length_zipWith] at hn
      omega
    rw [← hrow]
    show (List.zipWith (fun ra rb => List.zipWith f ra rb) a b)[n].length = c
    rw [List.getElem_zipWith, List.length_zipWith,
      ha2 _ (List.getElem_mem hna), hb2 _ (List.getElem_mem hnb)]
    simp

/-- A broadcast-compatible elementwise subtraction succeeds. -/
theorem subGrids_isOk {g h : NLayer} (hbc : broadcastable g h = true) :
    ∃ z, ChangeDetection.subGrids g h = Except.ok z := by
  unfold ChangeDetection.subGrids
  rw [if_pos hbc]
  exact ⟨_, rfl⟩

/-- Summing a function mapped over `List.range` is a `Finset.range` sum. -/
theorem list_range_map_sum (n : ℕ) (f : ℕ → ℕ) :
    ((List.range n).map f).sum = ∑ i in Finset.range n, f i := by
  induction n with
  | zero => simp
  | succ m ih =>
      rw [List.range_succ, List.map_append, List.sum_append, Finset.sum_range_succ, ih]
      simp

/-- Indexing a function mapped over `List.range`. -/
theorem getD_map_range (n : ℕ) (f : ℕ → α) (d : α) (i : ℕ) (h : i < n) :
    ((List.range n).map f).getD i d = f i := by
  rw [List.getD_eq_getElem?_getD, List.getElem?_map, List.getElem?_range h]
  rfl

/-- A family of disjoint counts over a list sums to the count of the
union predicate, given a pointwise indicator identity. -/
theorem sum_countP_eq (n : ℕ) (f : ℕ → α → Bool) (q : α → Bool) (l : List α)
    (h : ∀ x ∈ l,
      (∑ i in Finset.range n, (if f i x then 1 else 0)) = (if q x then (1 : ℕ) else 0)) :
    (∑ i in Finset.range n, l.countP (f i)) = l.countP q := by
  induction l with
  | nil => simp
  | cons x tl ih =>
      simp only [List.countP_cons]
      rw [Finset.sum_add_distrib, ih (fun y hy => h y (List.mem_cons_of_mem x hy)),
        h x (List.mem_cons_self x tl)]

/-- A class value in `0..4` matches exactly one of the classes `1..4`,
and matches none when it is `0`. -/
theorem indicator_range_four (a : ℕ) (ha : a ≤ 4) :
    (∑ j in Finset.range 4, if a = j + 1 then (1 : ℕ) else 0) =
      if 1 ≤ a ∧ a ≤ 4 then 1 else 0 := by
  interval_cases a <;> decide

/-- Diagonal version of `indicator_range_four` for a pair of class
values in `0..4`. -/
theorem diag_indicator_range_four (a b : ℕ) (ha : a ≤ 4) (hb : b ≤ 4) :
    (∑ i in Finset.range 4, if a = i + 1 ∧ b = i + 1 then (1 : ℕ) else 0) =
      if a = b ∧ a ≠ 0 then 1 else 0 := by
  interval_cases a <;> interval_cases b <;> decide

/-- Summing the per-class counts of one matrix row collapses to one
bounded-class count. -/
theorem count_row_classes (l : List (ℕ × ℕ)) (hl : ∀ p ∈ l, p.2 ≤ 4) (i : ℕ) :
    (∑ j in Finset.range 4,
        l.countP (fun p => decide (p.1 = i + 1) && decide (p.2 = j + 1))) =
      l.countP (fun p => decide (p.1 = i + 1) && (decide (1 ≤ p.2) && decide (p.2 ≤ 4))) := by
  apply sum_countP_eq
  intro x hx
  by_cases h1 : x.1 = i + 1
  · simp only [h1, decide_True, Bool.true_and, Bool.and_eq_true, decide_eq_true_eq,
      ← ite_and]
    exact indicator_range_four x.2 (hl x hx)
  · simp [h1]

/-- Summing the bounded-class row counts over all four classes collapses
to the count of positions where both values are nonzero. -/
theorem count_all_classes (l : List (ℕ × ℕ)) (hl : ∀ p ∈ l, p.1 ≤ 4 ∧ p.2 ≤ 4) :
    (∑ i in Finset.range 4,
        l.countP (fun p => decide (p.1 = i + 1) && (decide (1 ≤ p.2) && decide (p.2 ≤ 4)))) =
      l.countP (fun p => decide (p.1 ≠ 0) && decide (p.2 ≠ 0)) := by
  have step : (∑ i in Finset.range 4,
      l.countP (fun p => decide (p.1 = i + 1) && (decide (1 ≤ p.2) && decide (p.2 ≤ 4)))) =
      l.countP (fun p => (decide (1 ≤ p.1) && decide (p.1 ≤ 4)) &&
        (decide (1 ≤ p.2) && decide (p.2 ≤ 4))) := by
    apply sum_countP_eq
    intro x hx
    simp only [Bool.and_eq_true, decide_eq_true_eq, ← ite_and]
    by_cases h2 : 1 ≤ x.2 ∧ x.2 ≤ 4
    · simp only [h2.1, h2.2, and_self, and_true]
      exact indicator_range_four x.1 (hl x hx).1
    · simp [h2, and_comm]
  rw [step]
  apply List.countP_congr
  intro x hx
  simp only [Bool.and_eq_true, decide_eq_true_eq]
  have h1 := (hl x hx).1
  have h2 := (hl x hx).2
  omega

/-- Summing the diagonal counts over all four classes collapses to the
count of unchanged nonzero positions. -/
theorem count_diag_classes (l : List (ℕ × ℕ)) (hl : ∀ p ∈ l, p.1 ≤ 4 ∧ p.2 ≤ 4) :
    (∑ i in Finset.range 4,
        l.countP (fun p => decide (p.1 = i + 1) && decide (p.2 = i + 1))) =
      l.countP (fun p => decide (p.1 = p.2) && decide (p.1 ≠ 0)) := by
  apply sum_countP_eq
  intro x hx
  simp only [Bool.and_eq_true, decide_eq_true_eq, ← ite_and]
  exact diag_indicator_range_four x.1 x.2 (hl x hx).1 (hl x hx).2

/-- Claim C2: for every pair of same-shape label grids with cell values
in `0..4`, the change matrix entry `(i-1, j-1)` equals the count of
positions that are class `i` at time 1 and class `j` at time 2, the
matrix total equals the number of positions where both grids are
non-background (nonzero), and the matrix trace equals the number of such
positions whose class is unchanged. -/
theorem c2_change_matrix_invariants (g1 g2 : List (List ℕ)) (r c : ℕ)
    (hg1 : Rect g1 r c) (hg2 : Rect g2 r c)
    (hv1 : ∀ row ∈ g1, ∀ v ∈ row, v ≤ 4) (hv2 : ∀ row ∈ g2, ∀ v ∈ row, v ≤ 4)
    (M : List (List ℕ))
    (hM : TemporalAnalysis.calculate_changes g1 g2 = Except.ok M) :
    (∀ i j, 1 ≤ i → i ≤ 4 → 1 ≤ j → j ≤ 4 →
      (M.getD (i - 1) []).getD (j - 1) 0 =
        (g1.flatten.zip g2.flatten).countP
          (fun p => decide (p.1 = i) && decide (p.2 = j))) ∧
    (M.map List.sum).sum =
      (g1.flatten.zip g2.flatten).countP
        (fun p => decide (p.1 ≠ 0) && decide (p.2 ≠ 0)) ∧
    ((List.range 4).map (fun i => (M.getD i []).getD i 0)).sum =
      (g1.flatten.zip g2.flatten).countP
        (fun p => decide (p.1 = p.2) && decide (p.1 ≠ 0)) := by
  have hbc : broadcastable g1 g2 = true := broadcastable_of_same_shape g1 g2 r c hg1 hg2
  have hR1 : g1.length = max (rowsOf g1) (rowsOf g2) := by
    show g1.length = max g1.length g2.length
    rw [hg1.1, hg2.1, max_self]
  have hR2 : g2.length = max (rowsOf g1) (rowsOf g2) := by
    show g2.length = max g1.length g2.length
    rw [hg1.1, hg2.1, max_self]
  have hC1 : ∀ row ∈ g1, row.length = max (colsOf g1) (colsOf g2) := by
    intro row hrow
    have hr : 0 < r := by
      rw [← hg1.1]
      exact List.length_pos.mpr (List.ne_nil_of_mem hrow)
    rw [colsOf_rect g1 r c hg1 hr, colsOf_rect g2 r c hg2 hr, max_self]
    exact hg1.2 row hrow
  have hC2 : ∀ row ∈ g2, row.length = max (colsOf g1) (colsOf g2) := by
    intro row hrow
    have hr : 0 < r := by
      rw [← hg2.1]
      exact List.length_pos.mpr (List.ne_nil_of_mem hrow)
    rw [colsOf_rect g1 r c hg1 hr, colsOf_rect g2 r c hg2 hr, max_self]
    exact hg2.2 row hrow
  have hM' : M = (List.range 4).map (fun i => (List.range 4).map (fun j =>
      TemporalAnalysis.countPair g1.flatten g2.flatten (i + 1) (j + 1))) := by
    unfold TemporalAnalysis.calculate_changes at hM
    rw [if_pos hbc, bcast_self 0 g1 _ _ hR1 hC1, bcast_self 0 g2 _ _ hR2 hC2] at hM
    exact (Except.ok.inj hM).symm
  subst hM'
  have hl : ∀ p ∈ g1.flatten.zip g2.flatten, p.1 ≤ 4 ∧ p.2 ≤ 4 := by
    rintro ⟨x, y⟩ hp
    obtain ⟨hx, hy⟩ := List.of_mem_zip hp
    rw [List.mem_flatten] at hx hy
    obtain ⟨rx, hrx, hxx⟩ := hx
    obtain ⟨ry, hry, hyy⟩ := hy
    exact ⟨hv1 rx hrx x hxx, hv2 ry hry y hyy⟩
  have hl2 : ∀ p ∈ g1.flatten.zip g2.flatten, p.2 ≤ 4 := fun p hp => (hl p hp).2
  refine ⟨?_, ?_, ?_⟩
  · intro i j hi1 hi4 hj1 hj4
    rw [getD_map_range 4 _ [] (i - 1) (by omega), getD_map_range 4 _ 0 (j - 1) (by omega),
      show i - 1 + 1 = i by omega, show j - 1 + 1 = j by omega]
    rfl
  · simp only [TemporalAnalysis.countPair, List.map_map, Function.comp]
    rw [list_range_map_sum]
    simp only [Function.comp_apply]
    have e1 : ∀ i, ((List.range 4).map (fun j => (g1.flatten.zip g2.flatten).countP
        (fun p => decide (p.1 = i + 1) && decide (p.2 = j + 1)))).sum =
        (g1.flatten.zip g2.flatten).countP
          (fun p => decide (p.1 = i + 1) && (decide (1 ≤ p.2) && decide (p.2 ≤ 4))) := by
      intro i
      rw [list_range_map_sum]
      exact count_row_classes _ hl2 i
    rw [Finset.sum_congr rfl (fun i _ => e1 i)]
    exact count_all_classes _ hl
  · have e2 : ∀ i ∈ List.range 4,
        ((((List.range 4).map (fun i => (List.range 4).map (fun j =>
            TemporalAnalysis.countPair g1.flatten g2.flatten (i + 1) (j + 1)))).getD i []).getD i 0) =
          (g1.flatten.zip g2.flatten).countP
            (fun p => decide (p.1 = i + 1) && decide (p.2 = i + 1)) := by
      intro i hi
      have h4 := List.mem_range.mp hi
      rw [getD_map_range 4 _ [] i h4, getD_map_range 4 _ 0 i h4]
      rfl
    rw [List.map_congr_left e2, list_range_map_sum]
    exact count_diag_classes _ hl

/-- Witness for claim C2 at the spec's scenario: two identical 2×2 label
grids `[[1,2],[3,4]]` give the identity change matrix, total 4 and
trace 4. -/
theorem c2_change_matrix_invariants_witness :
    TemporalAnalysis.calculate_changes [[1, 2], [3, 4]] [[1, 2], [3, 4]] =
      Except.ok [[1, 0, 0, 0], [0, 1, 0, 0], [0, 0, 1, 0], [0, 0, 0, 1]] ∧
    (([[1, 0, 0, 0], [0, 1, 0, 0], [0, 0, 1, 0], [0, 0, 0, 1]] :
        List (List ℕ)).map List.sum).sum =
      (([[1, 2], [3, 4]] : List (List ℕ)).flatten.zip
          ([[1, 2], [3, 4]] : List (List ℕ)).flatten).countP
        (fun p => decide (p.1 ≠ 0) && decide (p.2 ≠ 0)) ∧
    ((List.range 4).map (fun i =>
        (([[1, 0, 0, 0], [0, 1, 0, 0], [0, 0, 1, 0], [0, 0, 0, 1]] :
          List (List ℕ)).getD i []).getD i 0)).sum =
      (([[1, 2], [3, 4]] : List (List ℕ)).flatten.zip
          ([[1, 2], [3, 4]] : List (List ℕ)).flatten).countP
        (fun p => decide (p.1 = p.2) && decide (p.1 ≠ 0)) := by
  have h := c2_change_matrix_invariants [[1, 2], [3, 4]] [[1, 2], [3, 4]] 2 2
    ⟨rfl, by decide⟩ ⟨rfl, by decide⟩ (by decide) (by decide)
    [[1, 0, 0, 0], [0, 1, 0, 0], [0, 0, 1, 0], [0, 0, 0, 1]] (by rfl)
  exact ⟨by rfl, h.2.1, h.2.2⟩

/-- Claim C5 (counterexample): with time-1 grid `[[1,2]]` (one row) and
time-2 grid `[[1,2],[3,4]]` (two rows) — shapes that do not share the
same height — both the categorical change computation and the continuous
change detection produce a result instead of raising any error, because
numpy silently broadcasts the one-row grid; no `ShapeMismatchError`
class exists in the code. -/
theorem c5_mismatched_shapes_counterexample :
    rowsOf ([[1, 2]] : List (List ℕ)) ≠ rowsOf ([[1, 2], [3, 4]] : List (List ℕ)) ∧
    (TemporalAnalysis.calculate_changes [[1, 2]] [[1, 2], [3, 4]]).isOk = true ∧
    (ChangeDetection.detect_changes [[[1, 2]], [[1, 2]], [[1, 2]], [[1, 2]]]
      [[[1, 2], [3, 4]], [[1, 2], [3, 4]], [[1, 2], [3, 4]], [[1, 2], [3, 4]]]).isOk
      = true := by
  refine ⟨by decide, by decide, ?_⟩
  decide

/-- Claim C5 (amended): neither change-detection mode validates grid
shapes or raises a `ShapeMismatchError` (no such error class exists);
whenever the two inputs' shapes are numpy-broadcast-compatible —
including mismatched shapes such as 1×2 against 2×2 — both modes
produce a result, and the only failure either mode can produce is the
array library's broadcast `ValueError` on non-broadcastable shapes. -/
theorem c5_no_shape_error_amended
    (g1 g2 : List (List ℕ)) (hbc : broadcastable g1 g2 = true)
    (img1 img2 : List Layer) (r1 c1 r2 c2 : ℕ)
    (hb1 : ∀ b ∈ img1, Rect b r1 c1) (hb2 : ∀ b ∈ img2, Rect b r2 c2)
    (hn1 : 4 ≤ img1.length) (hn2 : 4 ≤ img2.length)
    (hr1 : 0 < r1) (hr2 : 0 < r2)
    (hdr : dimOk r2 r1 = true) (hdc : dimOk c2 c1 = true) :
    (TemporalAnalysis.calculate_changes g1 g2).isOk = true ∧
    (ChangeDetection.detect_changes img1 img2).isOk = true := by
  constructor
  · unfold TemporalAnalysis.calculate_changes
    rw [if_pos hbc]
    rfl
  · have hidx1 : ∀ k, k < 4 → Rect (img1.getD k []) r1 c1 := by
      intro k hk
      have hk' : k < img1.length := lt_of_lt_of_le hk hn1
      simp only [List.getD_eq_getElem?_getD, List.getElem?_eq_getElem hk', Option.getD_some]
      exact hb1 _ (List.getElem_mem hk')
    have hidx2 : ∀ k, k < 4 → Rect (img2.getD k []) r2 c2 := by
      intro k hk
      have hk' : k < img2.length := lt_of_lt_of_le hk hn2
      simp only [List.getD_eq_getElem?_getD, List.getElem?_eq_getElem hk', Option.getD_some]
      exact hb2 _ (List.getElem_mem hk')
    have hnd1 : Rect (ChangeDetection.calculate_ndvi img1) r1 c1 :=
      zipCells_rect _ _ _ _ _ (hidx1 3 (by omega)) (hidx1 2 (by omega))
    have hnd2 : Rect (ChangeDetection.calculate_ndvi img2) r2 c2 :=
      zipCells_rect _ _ _ _ _ (hidx2 3 (by omega)) (hidx2 2 (by omega))
    have hnw1 : Rect (ChangeDetection.calculate_ndwi img1) r1 c1 :=
      zipCells_rect _ _ _ _ _ (hidx1 1 (by omega)) (hidx1 3 (by omega))
    have hnw2 : Rect (ChangeDetection.calculate_ndwi img2) r2 c2 :=
      zipCells_rect _ _ _ _ _ (hidx2 1 (by omega)) (hidx2 3 (by omega))
    have hnb1 : Rect (ChangeDetection.calculate_ndbi img1) r1 c1 :=
      zipCells_rect _ _ _ _ _ (hidx1 0 (by omega)) (hidx1 3 (by omega))
    have hnb2 : Rect (ChangeDetection.calculate_ndbi img2) r2 c2 :=
      zipCells_rect _ _ _ _ _ (hidx2 0 (by omega)) (hidx2 3 (by omega))
    obtain ⟨z1, hz1⟩ := subGrids_isOk (broadcastable_of_rect hnd2 hnd1 hr2 hr1 hdr hdc)
    obtain ⟨z2, hz2⟩ := subGrids_isOk (broadcastable_of_rect hnw2 hnw1 hr2 hr1 hdr hdc)
    obtain ⟨z3, hz3⟩ := subGrids_isOk (broadcastable_of_rect hnb2 hnb1 hr2 hr1 hdr hdc)
    unfold ChangeDetection.detect_changes
    rw [hz1, hz2, hz3]
    rfl

/-- Witness for the amended claim C5 at the same 1×2-against-2×2 inputs
as the counterexample. -/
theorem c5_no_shape_error_amended_witness :
    broadcastable ([[1, 2]] : List (List ℕ)) ([[1, 2], [3, 4]] : List (List ℕ)) = true ∧
    (TemporalAnalysis.calculate_changes [[1, 2]] [[1, 2], [3, 4]]).isOk = true ∧
    (ChangeDetection.detect_changes [[[1, 2]], [[1, 2]], [[1, 2]], [[1, 2]]]
      [[[1, 2], [3, 4]], [[1, 2], [3, 4]], [[1, 2], [3, 4]], [[1, 2], [3, 4]]]).isOk
      = true := by
  have h := c5_no_shape_error_amended [[1, 2]] [[1, 2], [3, 4]] (by decide)
    [[[1, 2]], [[1, 2]], [[1, 2]], [[1, 2]]]
    [[[1, 2], [3, 4]], [[1, 2], [3, 4]], [[1, 2], [3, 4]], [[1, 2], [3, 4]]]
    1 2 2 2 (by decide) (by decide) (by decide) (by decide) (by decide) (by decide)
    (by decide) (by decide)
  exact ⟨by decide, h.1, h.2⟩

/-- Claim C6 (counterexample): training on rows all labeled class 2 —
fewer than two distinct classes — does not raise; `train` performs no
class-count check, no `InsufficientClassesError` exists in the code, and
the fit succeeds, producing a trained model whose recorded training
labels are exactly the all-2 input. -/
theorem c6_single_class_counterexample :
    ([2, 2, 2] : List ℕ).dedup.length < 2 ∧
    ((Classification.LandCoverClassifier.init.train (fun x => 0) []
        [[1], [1], [1]] [2, 2, 2]).map
      (fun c => c.model.map (fun m => m.trainLabels))) =
      Except.ok (some [2, 2, 2]) :=
  ⟨by decide, rfl⟩

/-- Claim C6 (amended): `train` performs no class-count validation and
`InsufficientClassesError` does not exist; every length-matched,
nonempty training set — even one with a single distinct class — fits
successfully and produces a trained model. -/
theorem c6_single_class_trains_amended (vote : List ℚ → ℕ) (importances : List ℚ)
    (X : List (List ℚ)) (y : List ℕ)
    (hlen : X.length = y.length) (hne : y ≠ []) (hsingle : y.dedup.length < 2) :
    ((Classification.LandCoverClassifier.init.train vote importances X y).map
      (fun c => c.model.isSome)) = Except.ok true := by
  unfold Classification.LandCoverClassifier.train Classification.RandomForest.fit
  rw [if_pos ⟨hlen, hne⟩]
  rfl

/-- Witness for the amended claim C6 on all-class-2 training data. -/
theorem c6_single_class_trains_amended_witness :
    ([[1], [1], [1]] : List (List ℚ)).length = ([2, 2, 2] : List ℕ).length ∧
    ([2, 2, 2] : List ℕ) ≠ [] ∧
    ([2, 2, 2] : List ℕ).dedup.length < 2 ∧
    ((Classification.LandCoverClassifier.init.train (fun x => 0) []
        [[1], [1], [1]] [2, 2, 2]).map
      (fun c => c.model.isSome)) = Except.ok true :=
  ⟨rfl, by decide, by decide,
    c6_single_class_trains_amended (fun x => 0) [] [[1], [1], [1]] [2, 2, 2]
      rfl (by decide) (by decide)⟩

/-- Claim C7 (counterexample): a classifier trained on seven-feature
rows (the seven indices the feature-extraction stage produces) with a
library-consistent importance vector — seven entries of `1/7`, summing
to 1 across the features used at training time — returns a
feature-importance mapping holding only the three fixed
constructor-time keys, whose scores sum to `3/7 ≠ 1`, and the features
beyond the first three (for example `SAVI`) receive no score at all. -/
theorem c7_feature_importance_counterexample :
    (List.replicate 7 ((1 : ℚ) / 7)).length = 7 ∧
    (List.replicate 7 ((1 : ℚ) / 7)).sum = 1 ∧
    ((Classification.LandCoverClassifier.init.train (fun x => 0)
        (List.replicate 7 ((1 : ℚ) / 7))
        [List.replicate 7 0, List.replicate 7 1] [1, 2]).map
      (fun c => c.get_feature_importance)) =
      Except.ok (Except.ok [("NDVI", (1 : ℚ) / 7), ("NDWI", (1 : ℚ) / 7),
        ("NDBI", (1 : ℚ) / 7)]) ∧
    ([("NDVI", (1 : ℚ) / 7), ("NDWI", (1 : ℚ) / 7), ("NDBI", (1 : ℚ) / 7)].map
      (fun p => p.2)).sum ≠ 1 ∧
    ¬ ("SAVI" ∈ [("NDVI", (1 : ℚ) / 7), ("NDWI", (1 : ℚ) / 7),
        ("NDBI", (1 : ℚ) / 7)].map (fun p => p.1)) := by
  refine ⟨rfl, ?_, rfl, ?_, ?_⟩
  · rw [List.sum_replicate]
    norm_num
  · simp only [List.map_cons, List.map_nil, List.sum_cons, List.sum_nil]
    norm_num
  · simp only [List.map_cons, List.map_nil]
    decide

/-- Claim C7 (amended): for every classifier trained through `train`,
the feature-importance query returns the fixed constructor-time names
`NDVI, NDWI, NDBI` zipped against the model's importance vector —
truncating at the shorter list, so training-time features beyond the
first three receive no score and the returned scores need not sum to 1 —
and calling it on the untrained classifier fails with the library's
not-fitted error (the spec's `NotTrainedError`). -/
theorem c7_feature_importance_amended (vote : List ℚ → ℕ) (importances : List ℚ)
    (X : List (List ℚ)) (y : List ℕ) (c : Classification.LandCoverClassifier)
    (h : Classification.LandCoverClassifier.init.train vote importances X y =
      Except.ok c) :
    c.get_feature_importance = Except.ok (["NDVI", "NDWI", "NDBI"].zip importances) ∧
    Classification.LandCoverClassifier.init.get_feature_importance =
      Except.error PyError.notFittedError := by
  refine ⟨?_, rfl⟩
  unfold Classification.LandCoverClassifier.train Classification.RandomForest.fit at h
  split at h
  · simp only [Except.map, Except.ok.injEq] at h
    rw [← h]
    rfl
  · simp only [Except.map] at h
    exact absurd h (by simp)

/-- Witness for the amended claim C7: a model fitted with four
importance scores yields a three-entry mapping, and the untrained
classifier errors. -/
theorem c7_feature_importance_amended_witness :
    Classification.LandCoverClassifier.get_feature_importance
      ⟨some ⟨[1, 2], 2, [(1 : ℚ) / 2, 1 / 4, 1 / 8, 1 / 8], fun x => 0⟩,
        ["NDVI", "NDWI", "NDBI"], ["Water", "Vegetation", "Built-up", "Barren"]⟩ =
      Except.ok (["NDVI", "NDWI", "NDBI"].zip [(1 : ℚ) / 2, 1 / 4, 1 / 8, 1 / 8]) ∧
    Classification.LandCoverClassifier.init.get_feature_importance =
      Except.error PyError.notFittedError :=
  c7_feature_importance_amended (fun x => 0) [(1 : ℚ) / 2, 1 / 4, 1 / 8, 1 / 8]
    [[1, 1], [2, 2]] [1, 2]
    ⟨some ⟨[1, 2], 2, [(1 : ℚ) / 2, 1 / 4, 1 / 8, 1 / 8], fun x => 0⟩,
      ["NDVI", "NDWI", "NDBI"], ["Water", "Vegetation", "Built-up", "Barren"]⟩ rfl

/-- Claim C10: `predict` assigns a class value to every pixel position
of the feature stack (one prediction per flattened pixel, including
positions that were background in the training labels), and because
rows labeled 0 are removed before training, every predicted value is
one of the nonzero training labels — the predicted label grid never
contains the background value 0.  This holds for every possible
train/test split and every ensemble decision function. -/
theorem c10_predict_nonzero (sel : ℕ → Bool) (vote : List ℚ → ℕ) (importances : List ℚ)
    (X : List (List ℚ)) (y : List ℕ)
    (X_train : List (List ℚ)) (y_train : List ℕ)
    (X_test : List (List ℚ)) (y_test : List ℕ)
    (hprep : Classification.prepare_training_data sel X y =
      ((X_train, y_train), (X_test, y_test)))
    (c : Classification.LandCoverClassifier)
    (htrain : Classification.LandCoverClassifier.init.train vote importances
      X_train y_train = Except.ok c)
    (bands : List (List ℚ)) (preds : List ℕ)
    (hpred : c.predict bands = Except.ok preds) :
    preds.length = (bands.headD []).length ∧ ∀ v ∈ preds, v ∈ y_train ∧ v ≠ 0 := by
  have hy0 : ∀ v ∈ y_train, v ≠ 0 := by
    unfold Classification.prepare_training_data at hprep
    simp only [Prod.mk.injEq] at hprep
    obtain ⟨⟨hX, hY⟩, _⟩ := hprep
    subst hY
    intro v hv
    rw [List.mem_map] at hv
    obtain ⟨p, hp, hpv⟩ := hv
    rw [List.mem_map] at hp
    obtain ⟨q, hq, hqp⟩ := hp
    have hq2 : q.2 ∈ (X.zip y).filter (fun p => decide (p.2 ≠ 0)) := by
      have := List.mem_map_of_mem Prod.snd (List.mem_filter.mp hq).1
      rwa [List.enum_map_snd] at this
    have := (List.mem_filter.mp hq2).2
    simp only [decide_eq_true_eq] at this
    rw [← hpv, ← hqp]
    exact this
  unfold Classification.LandCoverClassifier.train Classification.RandomForest.fit
    at htrain
  split at htrain
  · next hcond =>
      simp only [Except.map, Except.ok.injEq] at htrain
      subst htrain
      unfold Classification.LandCoverClassifier.predict at hpred
      simp only [Except.ok.injEq] at hpred
      subst hpred
      constructor
      · simp [Classification.toPixelRows]
      · intro v hv
        rw [List.mem_map] at hv
        obtain ⟨x, _, hx⟩ := hv
        have hne : y_train ≠ [] := hcond.2
        have hlt : vote x % y_train.length < y_train.length :=
          Nat.mod_lt _ (List.length_pos.mpr hne)
        have hmem : Classification.RandomForest.predictRow
            ⟨y_train, (X_train.headD []).length, importances, vote⟩ x ∈ y_train := by
          unfold Classification.RandomForest.predictRow
          simp only [List.getD_eq_getElem?_getD, List.getElem?_eq_getElem hlt,
            Option.getD_some]
          exact List.getElem_mem hlt
        rw [← hx]
        exact ⟨hmem, hy0 _ hmem⟩
  · simp only [Except.map] at htrain
    exact absurd htrain (by simp)

/-- Witness for claim C10: training on one nonzero-labeled pixel (class
3, the background pixel dropped), then predicting a two-pixel band
yields two predictions, both class 3 and neither 0. -/
theorem c10_predict_nonzero_witness :
    Classification.prepare_training_data (fun x => true) [[1], [2]] [0, 3] =
      (([[2]], [3]), ([], [])) ∧
    Classification.LandCoverClassifier.init.train (fun x => 0) [] [[2]] [3] =
      Except.ok ⟨some ⟨[3], 1, [], fun x => 0⟩, ["NDVI", "NDWI", "NDBI"],
        ["Water", "Vegetation", "Built-up", "Barren"]⟩ ∧
    Classification.LandCoverClassifier.predict
      ⟨some ⟨[3], 1, [], fun x => 0⟩, ["NDVI", "NDWI", "NDBI"],
        ["Water", "Vegetation", "Built-up", "Barren"]⟩ [[5, 6]] =
      Except.ok [3, 3] ∧
    ¬ (0 ∈ ([3, 3] : List ℕ)) ∧
    ([3, 3] : List ℕ).length = (([[(5 : ℚ), 6]] : List (List ℚ)).headD []).length := by
  have h := c10_predict_nonzero (fun x => true) (fun x => 0) [] [[1], [2]] [0, 3]
    [[2]] [3] [] [] rfl
    ⟨some ⟨[3], 1, [], fun x => 0⟩, ["NDVI", "NDWI", "NDBI"],
      ["Water", "Vegetation", "Built-up", "Barren"]⟩ rfl
    [[5, 6]] [3, 3] rfl
  exact ⟨rfl, rfl, rfl, fun h0 => (h.2 0 h0).2 rfl, h.1⟩

/-- Claim C8 (counterexample): a 2×3 predicted grid against a 3×2
ground-truth grid — differing in both width and height — is processed
without any error because only the flattened lengths (both 6) are ever
compared; no `ShapeMismatchError` is raised and a result is produced. -/
theorem c8_validator_shape_counterexample :
    rowsOf ([[1, 2, 3], [4, 1, 2]] : List (List ℕ)) ≠
      rowsOf ([[1, 2], [3, 4], [1, 2]] : List (List ℕ)) ∧
    colsOf ([[1, 2, 3], [4, 1, 2]] : List (List ℕ)) ≠
      colsOf ([[1, 2], [3, 4], [1, 2]] : List (List ℕ)) ∧
    (Validation.validate_classification [[1, 2, 3], [4, 1, 2]]
      [[1, 2], [3, 4], [1, 2]]).isOk = true :=
  ⟨by decide, by decide, by decide⟩

/-- Claim C8 (amended): the Validator performs no shape check of its own
(no `ShapeMismatchError` or `EmptyLabelSetError` class exists).  When
the flattened lengths disagree — as with 100×100 against 50×50 — the
masking step fails with the array library's `IndexError`; equal
flattened lengths are processed even when the 2-D shapes differ; an
all-background ground truth makes the metrics library raise its
`ValueError`; and every successful result consists of exactly the
predictions and ground-truth labels at the positions whose ground-truth
label is nonzero, together with their confusion matrix. -/
theorem c8_validator_amended (prediction ground_truth : List (List ℕ)) :
    (prediction.flatten.length ≠ ground_truth.flatten.length →
      Validation.validate_classification prediction ground_truth =
        Except.error PyError.indexError) ∧
    (prediction.flatten.length = ground_truth.flatten.length →
      (ground_truth.flatten.zip prediction.flatten).filter
          (fun p => decide (p.1 ≠ 0)) = [] →
      Validation.validate_classification prediction ground_truth =
        Except.error PyError.valueError) ∧
    (∀ res, Validation.validate_classification prediction ground_truth =
        Except.ok res →
      res.1.1 = ((ground_truth.flatten.zip prediction.flatten).filter
          (fun p => decide (p.1 ≠ 0))).map (fun p => p.2) ∧
      res.1.2 = ((ground_truth.flatten.zip prediction.flatten).filter
          (fun p => decide (p.1 ≠ 0))).map (fun p => p.1) ∧
      res.2 = Validation.confusionMatrix res.1.2 res.1.1) := by
  refine ⟨?_, ?_, ?_⟩
  · intro h
    unfold Validation.validate_classification
    rw [if_pos h]
  · intro hlen hemp
    unfold Validation.validate_classification
    rw [if_neg (fun hc => hc hlen), hemp]
    rfl
  · intro res h
    unfold Validation.validate_classification at h
    split at h
    · exact absurd h (by simp)
    · unfold Validation.calculate_metrics at h
      split at h
      · exact absurd h (by simp [Except.map])
      · split at h
        · exact absurd h (by simp [Except.map])
        · simp only [Except.map, Except.ok.injEq] at h
          subst h
          exact ⟨rfl, rfl, rfl⟩

/-- Witness for the amended claim C8: a 1×2 prediction against a 1×3
ground truth fails with the index error, an all-zero ground truth fails
with the value error, and a mixed same-length case returns exactly the
nonzero-ground-truth positions with their confusion matrix. -/
theorem c8_validator_amended_witness :
    Validation.validate_classification [[1, 2]] [[1], [2], [3]] =
      Except.error PyError.indexError ∧
    Validation.validate_classification [[1, 2]] [[0, 0]] =
      Except.error PyError.valueError ∧
    (([1, 1, 1, 1, 1] : List ℕ) =
      ((([[1, 2], [3, 4], [0, 2]] : List (List ℕ)).flatten.zip
          ([[1, 1, 1], [1, 1, 1]] : List (List ℕ)).flatten).filter
        (fun p => decide (p.1 ≠ 0))).map (fun p => p.2) ∧
     ([1, 2, 3, 4, 2] : List ℕ) =
      ((([[1, 2], [3, 4], [0, 2]] : List (List ℕ)).flatten.zip
          ([[1, 1, 1], [1, 1, 1]] : List (List ℕ)).flatten).filter
        (fun p => decide (p.1 ≠ 0))).map (fun p => p.1)) := by
  have h1 := (c8_validator_amended [[1, 2]] [[1], [2], [3]]).1 (by decide)
  have h2 := (c8_validator_amended [[1, 2]] [[0, 0]]).2.1 rfl (by decide)
  have h3 := (c8_validator_amended [[1, 1, 1], [1, 1, 1]] [[1, 2], [3, 4], [0, 2]]).2.2
    (([1, 1, 1, 1, 1], [1, 2, 3, 4, 2]),
      Validation.confusionMatrix [1, 2, 3, 4, 2] [1, 1, 1, 1, 1]) rfl
  exact ⟨h1, h2, h3.1, h3.2.1⟩

end GeoChange
